import Mathlib

/-!
Verification development for the Evie repository: a shallow embedding of the
SMS dispatch services (`SMSService.android.ts`, `SMSService.ios.ts`), the
wake-word `VoiceService` state machine, and the `usePermissions` hook, together
with theorems settling the specification claims about them.

Conventions of the embedding:
* JavaScript strings are Lean `String`s; `s.replace(/\D/g, "")` becomes
  `digitsOnly`, `s.startsWith(p)` becomes `jsStartsWith`, `s.trim()` becomes
  `jsTrim` (computed on character lists; equivalent on the whitespace that
  matters here).
* External calls (OS permission dialogs, the Porcupine engine, the native SMS
  intent, the relay POST) are modelled by environment records carrying the
  outcome each call would report; the functions additionally return a trace of
  the external effects they perform, so that claims such as "no platform send
  call is attempted" are statable.
* Timestamps and log output are dropped: no claim mentions them.
-/

namespace Evie

/-- JS `str.replace(/\D/g, "")`: keep only the decimal digits of a string. -/
def digitsOnly (s : String) : String :=
  ⟨s.data.filter Char.isDigit⟩

/-- JS `str.startsWith(p)` on our strings, decided on the character lists. -/
def jsStartsWith (s p : String) : Bool :=
  p.data.isPrefixOf s.data

/-- JS `str.trim()`: drop leading and trailing whitespace (computed on the
character list so that concrete instances evaluate inside the kernel). -/
def jsTrim (s : String) : String :=
  ⟨((s.data.dropWhile Char.isWhitespace).reverse.dropWhile Char.isWhitespace).reverse⟩

/-! ## SMS data model (from `SMSService.android.ts`, shared by the iOS file) -/

/-- `SMSDeliveryStatus` enum of `SMSService.android.ts`. -/
inductive SMSDeliveryStatus where
  | sent
  | delivered
  | failed
  | pending
  | cancelled
  | unknown
deriving DecidableEq, Repr

/-- `SMSError` of `SMSService.android.ts` (technicalDetails dropped: it is a
free-form diagnostic string set from exception text). -/
structure SMSError where
  code : String
  message : String
  userMessage : String
  isRecoverable : Bool
  suggestedAction : String
deriving DecidableEq, Repr

/-- `SMSResult` of `SMSService.android.ts` (timestamp dropped). -/
structure SMSResult where
  success : Bool
  messageId : Option String := none
  deliveryStatus : SMSDeliveryStatus
  error : Option SMSError := none
deriving DecidableEq, Repr

/-- `SMSMessage` of `SMSService.android.ts` (id, timestamp, priority dropped:
they do not influence the send logic). The source field `to` is a Lean keyword,
so it is rendered `toNumber`. -/
structure SMSMessage where
  toNumber : String
  body : String
deriving DecidableEq, Repr

namespace AndroidSMSService

/-- `validatePhoneNumber` of `SMSService.android.ts`: the digits-only form must
have between 10 and 15 characters. -/
def validatePhoneNumber (phoneNumber : String) : Bool :=
  let cleanNumber := digitsOnly phoneNumber
  decide (10 ≤ cleanNumber.length ∧ cleanNumber.length ≤ 15)

/-- `formatPhoneNumber` of `SMSService.android.ts`. -/
def formatPhoneNumber (phoneNumber : String) : String :=
  let cleaned := digitsOnly phoneNumber
  if cleaned.length = 10 then
    "+1" ++ cleaned
  else if cleaned.length = 11 && jsStartsWith cleaned "1" then
    "+" ++ cleaned
  else if jsStartsWith cleaned "+" then phoneNumber else "+" ++ cleaned

end AndroidSMSService

namespace IOSSMSService

/-- `validatePhoneNumber` of `SMSService.ios.ts` (same text as the Android
one). -/
def validatePhoneNumber (phoneNumber : String) : Bool :=
  let cleanNumber := digitsOnly phoneNumber
  decide (10 ≤ cleanNumber.length ∧ cleanNumber.length ≤ 15)

/-- `formatPhoneNumber` of `SMSService.ios.ts` (same text as the Android
one). -/
def formatPhoneNumber (phoneNumber : String) : String :=
  let cleaned := digitsOnly phoneNumber
  if cleaned.length = 10 then
    "+1" ++ cleaned
  else if cleaned.length = 11 && jsStartsWith cleaned "1" then
    "+" ++ cleaned
  else if jsStartsWith cleaned "+" then phoneNumber else "+" ++ cleaned

end IOSSMSService

namespace AndroidSMSService

/-- Outcome that the `PermissionsAndroid.request` dialog reports. -/
inductive PermissionRequestResult where
  | granted
  | denied
  | neverAskAgain
deriving DecidableEq, Repr

/-- The three booleans of the `SendSMS.send` completion callback. -/
structure SendSMSOutcome where
  completed : Bool
  cancelled : Bool
  error : Bool
deriving DecidableEq, Repr

/-- External world for one `sendSMS` call: the platform, what the OS
permission check and request would report, and what the native send intent
callback would report. -/
structure Env where
  platformIsAndroid : Bool
  osHasPermission : Bool
  osRequestResult : PermissionRequestResult
  sendOutcome : SendSMSOutcome
deriving DecidableEq, Repr

/-- External calls the service performs, recorded as a trace. -/
inductive Effect where
  | osPermissionCheck
  | osPermissionRequest
  | platformSend (recipient body : String)
deriving DecidableEq, Repr

/-- `SMSPermissionStatus` of `SMSService.android.ts` (lastChecked dropped). -/
structure SMSPermissionStatus where
  hasPermission : Bool
  canRequestPermission : Bool
  isAvailable : Bool
deriving DecidableEq, Repr

/-- `createError` of `SMSService.android.ts` (technicalDetails dropped). -/
def createError (code message userMessage : String) (isRecoverable : Bool)
    (suggestedAction : String) : SMSError :=
  { code := code, message := message, userMessage := userMessage,
    isRecoverable := isRecoverable, suggestedAction := suggestedAction }

/-- `checkSMSPermission`: on Android, queries the OS and reports
`canRequestPermission = !hasPermission`; elsewhere SMS is unavailable. -/
def checkSMSPermission (env : Env) : SMSPermissionStatus × List Effect :=
  if !env.platformIsAndroid then
    ({ hasPermission := false, canRequestPermission := false, isAvailable := false }, [])
  else
    ({ hasPermission := env.osHasPermission,
       canRequestPermission := !env.osHasPermission, isAvailable := true },
     [Effect.osPermissionCheck])

/-- `requestSMSPermission`: on Android it always issues the OS permission
request and returns whether the result was GRANTED; elsewhere it returns
false. (The cached `permissionStatus` field it also updates is not read by
`sendSMS`, which re-checks, so it is not threaded here.) -/
def requestSMSPermission (env : Env) : Bool × List Effect :=
  if !env.platformIsAndroid then
    (false, [])
  else
    (decide (env.osRequestResult = PermissionRequestResult.granted),
     [Effect.osPermissionRequest])

/-- Placeholder for `generateMessageId` (source: timestamp + random suffix;
its value influences nothing). -/
def messageIdPlaceholder : String := "sms_message_id"

/-- `sendSMS` of `SMSService.android.ts`, lines 224-433, with the external
calls it makes recorded in a trace. The trailing catch-all (`SEND_ERROR`) is
not modelled: in the embedding no modelled step throws. -/
def sendSMS (env : Env) (message : SMSMessage) : SMSResult × List Effect :=
  if !env.platformIsAndroid then
    ({ success := false, deliveryStatus := SMSDeliveryStatus.failed,
       error := some (createError "PLATFORM_NOT_SUPPORTED"
         "SMS not supported on this platform"
         "SMS sending is only available on Android devices."
         false "Use the copy message feature instead") }, [])
  else
    let checked := checkSMSPermission env
    let permissionStatus := checked.1
    -- the validations and the platform send, shared by the permission branches
    let proceed : List Effect → SMSResult × List Effect := fun trace =>
      if !validatePhoneNumber message.toNumber then
        ({ success := false, deliveryStatus := SMSDeliveryStatus.failed,
           error := some (createError "INVALID_PHONE_NUMBER"
             "Invalid phone number format"
             "The phone number format is not valid. Please check the number and try again."
             true "Enter a valid phone number (10-15 digits)") }, trace)
      else if message.body = "" ∨ (jsTrim message.body).length = 0 then
        ({ success := false, deliveryStatus := SMSDeliveryStatus.failed,
           error := some (createError "EMPTY_MESSAGE"
             "Message body is empty"
             "Cannot send an empty message. Please add some text."
             true "Add text to your message") }, trace)
      else
        let formattedNumber := formatPhoneNumber message.toNumber
        let sendTrace := trace ++ [Effect.platformSend formattedNumber message.body]
        let o := env.sendOutcome
        if o.completed && !o.error then
          ({ success := true, messageId := some messageIdPlaceholder,
             deliveryStatus := SMSDeliveryStatus.sent }, sendTrace)
        else if o.cancelled then
          ({ success := false, deliveryStatus := SMSDeliveryStatus.cancelled,
             error := some (createError "SEND_CANCELLED"
               "SMS sending cancelled by user"
               "Message sending was cancelled."
               true "Try sending the message again") }, sendTrace)
        else
          ({ success := false, deliveryStatus := SMSDeliveryStatus.failed,
             error := some (createError "SEND_FAILED"
               "SMS sending failed"
               "Unable to send the message. This could be due to network issues or SMS service problems."
               true "Check your network connection and try again") }, sendTrace)
    if !permissionStatus.hasPermission then
      if permissionStatus.canRequestPermission then
        let requested := requestSMSPermission env
        let trace := checked.2 ++ requested.2
        if !requested.1 then
          ({ success := false, deliveryStatus := SMSDeliveryStatus.failed,
             error := some (createError "PERMISSION_DENIED"
               "SMS permission denied"
               "SMS permission is required to send messages automatically."
               true "Grant SMS permission in settings or use copy message feature") }, trace)
        else
          proceed trace
      else
        ({ success := false, deliveryStatus := SMSDeliveryStatus.failed,
           error := some (createError "PERMISSION_PERMANENTLY_DENIED"
             "SMS permission permanently denied"
             "SMS permission has been permanently denied."
             false "Enable SMS permission in device settings or use copy message feature") },
         checked.2)
    else
      proceed checked.2

end AndroidSMSService

namespace IOSSMSService

/-- How the axios POST to the relay endpoint ends, classified the way the
catch block of `sendSMS` classifies `AxiosError`s. -/
inductive PostOutcome where
  | response (status : Nat) (dataSuccess : Bool) (messageId : Option String)
  | timeout
  | rateLimited
  | serverError (status : Nat)
  | networkFailure
  | otherFailure
deriving DecidableEq, Repr

/-- External world for one iOS `sendSMS` call. -/
structure Env where
  platformIsIOS : Bool
  messagesThisMonth : Nat
  freeLimit : Nat
  firebaseProjectId : String
  postOutcome : PostOutcome
deriving DecidableEq, Repr

/-- External calls of the iOS service, recorded as a trace. -/
inductive Effect where
  | relayPost (phoneNumber body : String)
deriving DecidableEq, Repr

/-- `createError` of `SMSService.ios.ts`: the suggested action is derived from
the recoverability flag (technicalDetails dropped). -/
def createError (code message userMessage : String) (isRecoverable : Bool) : SMSError :=
  { code := code, message := message, userMessage := userMessage,
    isRecoverable := isRecoverable,
    suggestedAction :=
      if isRecoverable then "Try again" else "Check your internet connection" }

/-- Placeholder for the iOS `generateMessageId`. -/
def messageIdPlaceholder : String := "ios_sms_message_id"

/-- `isAvailable` of `SMSService.ios.ts`: iOS platform, under the free-tier
limit, and a configured Firebase project id. -/
def isAvailable (env : Env) : Bool :=
  if !env.platformIsIOS then false
  else if env.freeLimit ≤ env.messagesThisMonth then false
  else if env.firebaseProjectId = "" then false
  else true

/-- `sendSMS` of `SMSService.ios.ts`, lines 203-395, with the relay POST
recorded in a trace. -/
def sendSMS (env : Env) (message : SMSMessage) : SMSResult × List Effect :=
  if !env.platformIsIOS then
    ({ success := false, deliveryStatus := SMSDeliveryStatus.failed,
       error := some (createError "PLATFORM_NOT_SUPPORTED"
         "iOS SMS service not supported on this platform"
         "This SMS method is only available on iOS devices." false) }, [])
  else if !isAvailable env then
    ({ success := false, deliveryStatus := SMSDeliveryStatus.failed,
       error := some (createError "SERVICE_UNAVAILABLE"
         "iOS SMS service not available"
         "SMS service is currently unavailable. You may have reached the free tier limit."
         false) }, [])
  else if !validatePhoneNumber message.toNumber then
    ({ success := false, deliveryStatus := SMSDeliveryStatus.failed,
       error := some (createError "INVALID_PHONE_NUMBER"
         "Invalid phone number format"
         "The phone number format is not valid. Please check the number and try again."
         true) }, [])
  else if message.body = "" ∨ (jsTrim message.body).length = 0 then
    ({ success := false, deliveryStatus := SMSDeliveryStatus.failed,
       error := some (createError "EMPTY_MESSAGE"
         "Message body is empty"
         "Cannot send an empty message. Please add some text."
         true) }, [])
  else
    let formattedNumber := formatPhoneNumber message.toNumber
    let trace := [Effect.relayPost formattedNumber message.body]
    match env.postOutcome with
    | PostOutcome.response status dataSuccess messageId =>
      if status = 200 && dataSuccess then
        ({ success := true,
           messageId := some (messageId.getD messageIdPlaceholder),
           deliveryStatus := SMSDeliveryStatus.sent }, trace)
      else
        ({ success := false, deliveryStatus := SMSDeliveryStatus.failed,
           error := some (createError "CLOUD_FUNCTION_ERROR"
             "Cloud function returned error"
             "Unable to send the message through the cloud service." true) }, trace)
    | PostOutcome.timeout =>
      ({ success := false, deliveryStatus := SMSDeliveryStatus.failed,
         error := some (createError "TIMEOUT_ERROR" "iOS SMS sending error"
           "The request timed out. Please check your internet connection." true) }, trace)
    | PostOutcome.rateLimited =>
      ({ success := false, deliveryStatus := SMSDeliveryStatus.failed,
         error := some (createError "RATE_LIMITED" "iOS SMS sending error"
           "Too many requests. Please wait a moment and try again." true) }, trace)
    | PostOutcome.serverError _ =>
      ({ success := false, deliveryStatus := SMSDeliveryStatus.failed,
         error := some (createError "SERVER_ERROR" "iOS SMS sending error"
           "The SMS service is temporarily unavailable. Please try again later." true) }, trace)
    | PostOutcome.networkFailure =>
      ({ success := false, deliveryStatus := SMSDeliveryStatus.failed,
         error := some (createError "NETWORK_ERROR" "iOS SMS sending error"
           "No internet connection. Please check your network and try again." true) }, trace)
    | PostOutcome.otherFailure =>
      ({ success := false, deliveryStatus := SMSDeliveryStatus.failed,
         error := some (createError "SEND_ERROR" "iOS SMS sending error"
           "An unexpected error occurred while sending the message." true) }, trace)

end IOSSMSService

/-! ### The retry wrapper, shared verbatim by both service files -/

/-- The retry condition of `sendSMSWithRetry`:
`!result.success && result.error?.isRecoverable`. -/
def isRecoverableFailure (r : SMSResult) : Bool :=
  !r.success && (match r.error with
    | some e => e.isRecoverable
    | none => false)

/-- The retry-relevant part of both service configs, with the constructor
defaults `maxRetries: 3`, `retryDelay: 2000`. -/
structure RetryConfig where
  maxRetries : Nat
  retryDelay : Nat
deriving DecidableEq, Repr

/-- The constructor defaults of both services. -/
def defaultRetryConfig : RetryConfig := { maxRetries := 3, retryDelay := 2000 }

/-- The recursion of `sendSMSWithRetry` (identical in both service files):
call `sendSMS`; while the result is a recoverable failure and
`retryCount < maxRetries`, increment the counter, wait `retryDelay`, and
recurse. Returns the final result, the number of `sendSMS` calls made, and
the list of waits performed. `attempt i` is the result the `i`-th `sendSMS`
call would produce. -/
def sendWithRetryLoop (attempt : Nat → SMSResult) (maxRetries retryDelay : Nat)
    (retryCount : Nat) : SMSResult × Nat × List Nat :=
  let result := attempt retryCount
  if h : isRecoverableFailure result = true ∧ retryCount < maxRetries then
    let rest := sendWithRetryLoop attempt maxRetries retryDelay (retryCount + 1)
    (rest.1, rest.2.1 + 1, retryDelay :: rest.2.2)
  else
    (result, 1, [])
termination_by maxRetries - retryCount
decreasing_by omega

/-- `sendSMSWithRetry` of `SMSService.android.ts` (the per-call environments
indexed by the attempt number; `retryCount` starts at 0 in a quiescent
service). -/
def AndroidSMSService.sendSMSWithRetry (envs : Nat → AndroidSMSService.Env)
    (message : SMSMessage) (cfg : RetryConfig) : SMSResult × Nat × List Nat :=
  sendWithRetryLoop (fun i => (AndroidSMSService.sendSMS (envs i) message).1)
    cfg.maxRetries cfg.retryDelay 0

/-- `sendSMSWithRetry` of `SMSService.ios.ts`. -/
def IOSSMSService.sendSMSWithRetry (envs : Nat → IOSSMSService.Env)
    (message : SMSMessage) (cfg : RetryConfig) : SMSResult × Nat × List Nat :=
  sendWithRetryLoop (fun i => (IOSSMSService.sendSMS (envs i) message).1)
    cfg.maxRetries cfg.retryDelay 0

/-! ## Wake-word listener: `VoiceService` (src/unnamed/part_004)

The embedding makes the calls into the Porcupine engine and the OS explicit
through an environment of call outcomes and a trace of effects. A key fact of
the source, mirrored here: `start()` and `stop()` wrap their whole bodies in
try/catch and report failure by returning `false`, so the `try` body of
`attemptRecovery` never throws and its `catch` (which would increment-and-
reschedule after 3 seconds) is unreachable; the cycle always falls through to
the `this.retryCount = 0` line. -/

namespace VoiceService

/-- `VoiceServiceState` enum. -/
inductive VoiceServiceState where
  | idle
  | initializing
  | listening
  | processing
  | error
  | permissionDenied
deriving DecidableEq, Repr

/-- The fields of `VoiceServiceConfig` that the modelled logic reads
(`sensitivity` and `enableDebugging` only feed the event payload and logs). -/
structure Config where
  accessKey : String
  keyword : String
deriving DecidableEq, Repr

/-- The mutable instance fields of the `VoiceService` class.
`porcupineCreated` models `porcupineManager !== null`. -/
structure VSState where
  currentState : VoiceServiceState
  isInitialized : Bool
  permissionGranted : Bool
  retryCount : Nat
  porcupineCreated : Bool
deriving DecidableEq, Repr

/-- `maxRetries` instance field (always 3). -/
def maxRetries : Nat := 3

/-- The state of a freshly constructed service. -/
def initialState : VSState :=
  { currentState := VoiceServiceState.idle, isInitialized := false,
    permissionGranted := false, retryCount := 0, porcupineCreated := false }

/-- Outcomes of the external calls the service makes. -/
structure Env where
  platformIsAndroid : Bool
  osMicPermissionGranted : Bool
  porcupineCreateOk : Bool
  porcupineStartOk : Bool
  porcupineStopOk : Bool
deriving DecidableEq, Repr

/-- The events the service emits (`VoiceEvent.type`); error events carry the
`VoiceError.code`. -/
inductive Event where
  | keywordDetected
  | listeningStarted
  | listeningStopped
  | errorEvent (code : String)
  | permissionDeniedEvent
deriving DecidableEq, Repr

/-- Observable effects: engine calls, waits, and emitted events. -/
inductive Effect where
  | porcupineCreate
  | porcupineStart
  | porcupineStop
  | wait (ms : Nat)
  | emit (e : Event)
deriving DecidableEq, Repr

/-- `requestMicrophonePermission`: on Android asks the OS; on iOS the
permission is assumed granted. On denial it emits `permission_denied` and
moves to `PERMISSION_DENIED`. -/
def requestMicrophonePermission (env : Env) (s : VSState) :
    Bool × VSState × List Effect :=
  if env.platformIsAndroid then
    let granted := env.osMicPermissionGranted
    let s1 := { s with permissionGranted := granted }
    if !granted then
      (false, { s1 with currentState := VoiceServiceState.permissionDenied },
       [Effect.emit Event.permissionDeniedEvent])
    else
      (true, s1, [])
  else
    (true, { s with permissionGranted := true }, [])

/-- `initialize()`: move to `INITIALIZING`, acquire the microphone permission
if needed, validate the access key (length ≥ 10), create the Porcupine
manager; on success end `Idle` and initialized, on any failure emit
`INIT_ERROR` and end in `ERROR` (except permission denial, which
`requestMicrophonePermission` already reported). -/
def initService (env : Env) (cfg : Config) (s : VSState) :
    Bool × VSState × List Effect :=
  let s0 := { s with currentState := VoiceServiceState.initializing }
  let afterPermission : VSState → List Effect → Bool × VSState × List Effect :=
    fun s1 eff =>
      if cfg.accessKey = "" ∨ cfg.accessKey.length < 10 then
        (false, { s1 with currentState := VoiceServiceState.error },
         eff ++ [Effect.emit (Event.errorEvent "INIT_ERROR")])
      else if env.porcupineCreateOk then
        (true,
         { s1 with porcupineCreated := true, isInitialized := true, currentState := VoiceServiceState.idle },
         eff ++ [Effect.porcupineCreate])
      else
        (false, { s1 with currentState := VoiceServiceState.error },
         eff ++ [Effect.porcupineCreate, Effect.emit (Event.errorEvent "INIT_ERROR")])
  if !s0.permissionGranted then
    let requested := requestMicrophonePermission env s0
    if !requested.1 then
      (false, requested.2.1, requested.2.2)
    else
      afterPermission requested.2.1 requested.2.2
  else
    afterPermission s0 []

/-- `start()`: initialize first if needed; a call while already `LISTENING`
returns success at once; otherwise start the engine, move to `LISTENING` and
emit `listening_started`, or on failure emit `START_ERROR` and move to
`ERROR`. -/
def start (env : Env) (cfg : Config) (s : VSState) :
    Bool × VSState × List Effect :=
  let afterInit : VSState → List Effect → Bool × VSState × List Effect :=
    fun s1 eff =>
      if s1.currentState = VoiceServiceState.listening then
        (true, s1, eff)
      else if !s1.porcupineCreated then
        (false, { s1 with currentState := VoiceServiceState.error },
         eff ++ [Effect.emit (Event.errorEvent "START_ERROR")])
      else if env.porcupineStartOk then
        (true, { s1 with currentState := VoiceServiceState.listening },
         eff ++ [Effect.porcupineStart, Effect.emit Event.listeningStarted])
      else
        (false, { s1 with currentState := VoiceServiceState.error },
         eff ++ [Effect.porcupineStart, Effect.emit (Event.errorEvent "START_ERROR")])
  if !s.isInitialized then
    let inited := initService env cfg s
    if !inited.1 then
      (false, inited.2.1, inited.2.2)
    else
      afterInit inited.2.1 inited.2.2
  else
    afterInit s []

/-- `stop()`: a call while `IDLE` or with no manager resets to `IDLE` and
returns success; otherwise stop the engine, move to `IDLE` and emit
`listening_stopped`, or on failure emit `STOP_ERROR` (the catch does not
change the state). -/
def stop (env : Env) (s : VSState) : Bool × VSState × List Effect :=
  if s.currentState = VoiceServiceState.idle ∨ s.porcupineCreated = false then
    (true, { s with currentState := VoiceServiceState.idle }, [])
  else if env.porcupineStopOk then
    (true, { s with currentState := VoiceServiceState.idle },
     [Effect.porcupineStop, Effect.emit Event.listeningStopped])
  else
    (false, s, [Effect.porcupineStop, Effect.emit (Event.errorEvent "STOP_ERROR")])

/-- `attemptRecovery()`: if `retryCount >= maxRetries` emit the terminal
`RECOVERY_FAILED` error and do nothing else; otherwise increment the counter
and run `stop(); wait 2s; start()`, then set the counter back to 0. The
source resets unconditionally because `stop()`/`start()` signal failure by
returning `false`, never by throwing, so the `catch` that would schedule
another attempt after 3s cannot run. -/
def attemptRecovery (env : Env) (cfg : Config) (s : VSState) :
    VSState × List Effect :=
  if maxRetries ≤ s.retryCount then
    (s, [Effect.emit (Event.errorEvent "RECOVERY_FAILED")])
  else
    let s1 := { s with retryCount := s.retryCount + 1 }
    let stopped := stop env s1
    let started := start env cfg stopped.2.1
    ({ started.2.1 with retryCount := 0 },
     stopped.2.2 ++ [Effect.wait 2000] ++ started.2.2)

/-- `handlePorcupineError`: emit the `PORCUPINE_ERROR` event, move to `ERROR`,
and attempt recovery. -/
def handlePorcupineError (env : Env) (cfg : Config) (s : VSState) :
    VSState × List Effect :=
  let s1 := { s with currentState := VoiceServiceState.error }
  let recovered := attemptRecovery env cfg s1
  (recovered.1, Effect.emit (Event.errorEvent "PORCUPINE_ERROR") :: recovered.2)

/-- `handleKeywordDetection`: move to `PROCESSING` (whatever the previous
state was) and emit the detection event; the 1-second timer it schedules is
modelled as the separate input `detectionTimerFire`. -/
def handleKeywordDetection (s : VSState) : VSState × List Effect :=
  ({ s with currentState := VoiceServiceState.processing },
   [Effect.emit Event.keywordDetected])

/-- The body of the 1-second `setTimeout` in `handleKeywordDetection`: return
to `LISTENING` exactly when still `PROCESSING`. -/
def detectionTimerFire (s : VSState) : VSState :=
  if s.currentState = VoiceServiceState.processing then
    { s with currentState := VoiceServiceState.listening }
  else
    s

/-- External stimuli delivered to the service. -/
inductive Input where
  | keywordCallback
  | porcupineErrorCallback
  | detectionTimer
  | callStart
  | callStop
deriving DecidableEq, Repr

/-- One stimulus step. -/
def step (env : Env) (cfg : Config) (s : VSState) (i : Input) :
    VSState × List Effect :=
  match i with
  | Input.keywordCallback => handleKeywordDetection s
  | Input.porcupineErrorCallback => handlePorcupineError env cfg s
  | Input.detectionTimer => (detectionTimerFire s, [])
  | Input.callStart =>
    let r := start env cfg s
    (r.2.1, r.2.2)
  | Input.callStop =>
    let r := stop env s
    (r.2.1, r.2.2)

/-- Run a list of stimuli, accumulating the effect trace. -/
def run (env : Env) (cfg : Config) : VSState → List Input → VSState × List Effect
  | s, [] => (s, [])
  | s, i :: is =>
    let r := step env cfg s i
    let rest := run env cfg r.1 is
    (rest.1, r.2 ++ rest.2)

/-- Like `run`, but record, for each keyword-detection callback, the listener
state at the moment the callback arrives (every such callback emits the
detection event). -/
def runDetectionStates (env : Env) (cfg : Config) :
    VSState → List Input → List VoiceServiceState
  | _, [] => []
  | s, i :: is =>
    let r := step env cfg s i
    let here := if i = Input.keywordCallback then [s.currentState] else []
    here ++ runDetectionStates env cfg r.1 is

/-- A config with a well-formed access key. -/
def goodConfig : Config := { accessKey := "0123456789ABCDEF", keyword := "sunshine" }

/-- Environment where every external call succeeds. -/
def goodEnv : Env :=
  { platformIsAndroid := true, osMicPermissionGranted := true,
    porcupineCreateOk := true, porcupineStartOk := true, porcupineStopOk := true }

/-- Environment where `porcupineManager.start()` fails (so a recovery cycle
cannot return the service to listening) but everything else succeeds. -/
def startFailEnv : Env :=
  { platformIsAndroid := true, osMicPermissionGranted := true,
    porcupineCreateOk := true, porcupineStartOk := false, porcupineStopOk := true }

end VoiceService

/-! ## Permission gateway: `usePermissions.ts` -/

namespace UsePermissions

/-- `PermissionStatus` of `usePermissions.ts`. -/
inductive PermissionStatus where
  | granted
  | denied
  | neverAskAgain
  | undetermined
  | restricted
  | unavailable
deriving DecidableEq, Repr

/-- One `Permission` record (type, isRequired and lastChecked dropped: the
request logic does not branch on them). -/
structure Permission where
  status : PermissionStatus
  requestCount : Nat
deriving DecidableEq, Repr

/-- What the `PermissionsAndroid.request` dialog reports. -/
inductive OSRequestResult where
  | granted
  | denied
  | neverAskAgain
deriving DecidableEq, Repr

/-- External calls of the hook. -/
inductive Effect where
  | osRequest
deriving DecidableEq, Repr

/-- The Android branch of `requestPermission` in `usePermissions.ts`, lines
292-346: increment `requestCount`, unconditionally issue the OS permission
request, map the OS result onto the status enum, store and return it. There
is no short-circuit on a cached `never_ask_again` status. -/
def requestPermissionAndroid (osResult : OSRequestResult) (p : Permission) :
    PermissionStatus × Permission × List Effect :=
  let p1 := { p with requestCount := p.requestCount + 1 }
  let status :=
    match osResult with
    | OSRequestResult.granted => PermissionStatus.granted
    | OSRequestResult.denied => PermissionStatus.denied
    | OSRequestResult.neverAskAgain => PermissionStatus.neverAskAgain
  (status, { p1 with status := status }, [Effect.osRequest])

/-- The Android branch of `checkPermission` in `usePermissions.ts`: the OS
check only distinguishes granted from denied. -/
def checkPermissionAndroid (osHasPermission : Bool) (p : Permission) :
    PermissionStatus × Permission :=
  let status :=
    if osHasPermission then PermissionStatus.granted else PermissionStatus.denied
  (status, { p with status := status })

end UsePermissions

/-! ### Facts about the digits-only form -/

theorem digitsOnly_not_startsWith_plus (s : String) :
    jsStartsWith (digitsOnly s) "+" = false := by
  unfold jsStartsWith digitsOnly
  cases h : s.data.filter Char.isDigit with
  | nil =>
    show List.isPrefixOf "+".data [] = false
    rfl
  | cons c cs =>
    have hmem : c ∈ s.data.filter Char.isDigit := h ▸ List.mem_cons_self c cs
    have hc : Char.isDigit c = true := (List.mem_filter.mp hmem).2
    have hne : ('+' == c) = false := by
      cases hcp : ('+' == c) with
      | false => rfl
      | true =>
        have heq : '+' = c := beq_iff_eq.mp hcp
        rw [← heq] at hc
        exact absurd hc (by decide)
    show List.isPrefixOf "+".data (c :: cs) = false
    have hdat : "+".data = ['+'] := rfl
    rw [hdat]
    simp [List.isPrefixOf, hne]

/-- The two `formatPhoneNumber` functions are textually identical, hence the
same function. -/
theorem formatPhoneNumber_ios_eq_android :
    IOSSMSService.formatPhoneNumber = AndroidSMSService.formatPhoneNumber := rfl

/-- Outside the 10-digit case, `formatPhoneNumber` always returns a plus sign
followed by the stripped digits: the pass-through branch tests whether the
already-stripped string begins with a plus, which never holds. -/
theorem formatPhoneNumber_otherwise (s : String)
    (h10 : (digitsOnly s).length ≠ 10) :
    AndroidSMSService.formatPhoneNumber s = "+" ++ digitsOnly s := by
  simp only [AndroidSMSService.formatPhoneNumber]
  rw [if_neg h10]
  split
  · rfl
  · rw [if_neg]
    simp [digitsOnly_not_startsWith_plus]

/-- C3 (amended): for every input string, if the stripped digits have length
10 the result is "+1" followed by them; if they have length 11 and start with
"1" the result is "+" followed by them; but an input that already begins with
"+" is NOT passed through unchanged in general: in every case other than the
10-digit one the result is "+" followed by the stripped digits, so e.g.
"+5551234567" is rewritten. Both platform services behave identically. -/
theorem formatPhoneNumber_spec (s : String) :
    ((digitsOnly s).length = 10 →
      AndroidSMSService.formatPhoneNumber s = "+1" ++ digitsOnly s
      ∧ IOSSMSService.formatPhoneNumber s = "+1" ++ digitsOnly s)
    ∧ ((digitsOnly s).length = 11 → jsStartsWith (digitsOnly s) "1" = true →
      AndroidSMSService.formatPhoneNumber s = "+" ++ digitsOnly s
      ∧ IOSSMSService.formatPhoneNumber s = "+" ++ digitsOnly s)
    ∧ ((digitsOnly s).length ≠ 10 →
      AndroidSMSService.formatPhoneNumber s = "+" ++ digitsOnly s
      ∧ IOSSMSService.formatPhoneNumber s = "+" ++ digitsOnly s) := by
  refine ⟨fun h10 => ?_, fun h11 _ => ?_, fun h10 => ?_⟩
  · constructor
    · simp [AndroidSMSService.formatPhoneNumber, h10]
    · rw [formatPhoneNumber_ios_eq_android]
      simp [AndroidSMSService.formatPhoneNumber, h10]
  · have h10 : (digitsOnly s).length ≠ 10 := by omega
    exact ⟨formatPhoneNumber_otherwise s h10,
      by rw [formatPhoneNumber_ios_eq_android]; exact formatPhoneNumber_otherwise s h10⟩
  · exact ⟨formatPhoneNumber_otherwise s h10,
      by rw [formatPhoneNumber_ios_eq_android]; exact formatPhoneNumber_otherwise s h10⟩

/-- Witness for C3: a plain 10-digit number with punctuation is normalized by
prepending "+1". -/
theorem formatPhoneNumber_spec_witness :
    (digitsOnly "(555) 123-4567").length = 10
    ∧ AndroidSMSService.formatPhoneNumber "(555) 123-4567"
        = "+1" ++ digitsOnly "(555) 123-4567" :=
  ⟨by decide, ((formatPhoneNumber_spec "(555) 123-4567").1 (by decide)).1⟩

/-- C3 counterexample: the input "+5551234567" already begins with "+" but is
not passed through unchanged: both services rewrite it to "+15551234567". -/
theorem formatPhoneNumber_plus_not_preserved :
    jsStartsWith "+5551234567" "+" = true
    ∧ AndroidSMSService.formatPhoneNumber "+5551234567" = "+15551234567"
    ∧ IOSSMSService.formatPhoneNumber "+5551234567" = "+15551234567"
    ∧ "+15551234567" ≠ "+5551234567" :=
  ⟨by decide, by decide, by decide, by decide⟩

/-! ### Behaviour of the shared retry loop -/

/-- The two `validatePhoneNumber` functions are the same function. -/
theorem validatePhoneNumber_ios_eq_android :
    IOSSMSService.validatePhoneNumber = AndroidSMSService.validatePhoneNumber := rfl

/-- When the attempt at the current counter is a success or a
non-recoverable failure, the loop returns it at once: one `sendSMS` call, no
waits. -/
theorem sendWithRetryLoop_no_retry (attempt : Nat → SMSResult)
    (maxR delay k : Nat) (h : isRecoverableFailure (attempt k) = false) :
    sendWithRetryLoop attempt maxR delay k = (attempt k, 1, []) := by
  rw [sendWithRetryLoop]
  rw [dif_neg]
  intro hc
  rw [h] at hc
  exact Bool.false_ne_true hc.1

/-- When every attempt up to the bound is a recoverable failure, the loop
performs `maxR - k` retries from counter `k`, each preceded by a wait of
`delay`, and returns the result of the attempt at counter `maxR` unchanged. -/
theorem sendWithRetryLoop_all_recoverable (attempt : Nat → SMSResult)
    (maxR delay : Nat)
    (h : ∀ i, i ≤ maxR → isRecoverableFailure (attempt i) = true) :
    ∀ n k, k ≤ maxR → maxR - k = n →
      sendWithRetryLoop attempt maxR delay k
        = (attempt maxR, n + 1, List.replicate n delay) := by
  intro n
  induction n with
  | zero =>
    intro k hk hn
    have hkm : k = maxR := by omega
    subst hkm
    rw [sendWithRetryLoop]
    rw [dif_neg (fun hc => absurd hc.2 (lt_irrefl k))]
    rfl
  | succ n ih =>
    intro k hk hn
    have hklt : k < maxR := by omega
    rw [sendWithRetryLoop]
    rw [dif_pos ⟨h k (Nat.le_of_lt hklt), hklt⟩]
    rw [ih (k + 1) (by omega) (by omega)]
    rfl

/-! ### Concrete environments used by witnesses and counterexamples -/

/-- Android environment: right platform, permission already granted, native
send reports completion without error. -/
def androidOkEnv : AndroidSMSService.Env :=
  { platformIsAndroid := true, osHasPermission := true,
    osRequestResult := AndroidSMSService.PermissionRequestResult.granted,
    sendOutcome := { completed := true, cancelled := false, error := false } }

/-- Android environment: right platform, permission already granted, native
send reports an error. -/
def androidSendFailEnv : AndroidSMSService.Env :=
  { platformIsAndroid := true, osHasPermission := true,
    osRequestResult := AndroidSMSService.PermissionRequestResult.granted,
    sendOutcome := { completed := false, cancelled := false, error := true } }

/-- iOS environment: right platform, quota available, configured project,
relay reports success. -/
def iosOkEnv : IOSSMSService.Env :=
  { platformIsIOS := true, messagesThisMonth := 0, freeLimit := 1000,
    firebaseProjectId := "evie-project",
    postOutcome := IOSSMSService.PostOutcome.response 200 true none }

/-- iOS environment: right platform, quota available, configured project,
relay times out. -/
def iosTimeoutEnv : IOSSMSService.Env :=
  { platformIsIOS := true, messagesThisMonth := 0, freeLimit := 1000,
    firebaseProjectId := "evie-project",
    postOutcome := IOSSMSService.PostOutcome.timeout }

/-! ### C4: invalid recipient -/

/-- C4 (amended): with the platform and permission in place, a recipient
whose digits-only form is outside 10-15 makes `sendSMS` fail with the
`INVALID_PHONE_NUMBER` error and no platform send call is attempted — but the
error is marked recoverable, so `sendSMSWithRetry` retries it up to the
configured maximum instead of returning at once. -/
theorem invalid_recipient_spec (env : AndroidSMSService.Env)
    (envs : Nat → AndroidSMSService.Env) (cfg : RetryConfig) (m : SMSMessage)
    (hplat : env.platformIsAndroid = true) (hperm : env.osHasPermission = true)
    (hval : AndroidSMSService.validatePhoneNumber m.toNumber = false)
    (henvs : ∀ i, (envs i).platformIsAndroid = true ∧ (envs i).osHasPermission = true) :
    (AndroidSMSService.sendSMS env m).1.success = false
    ∧ (AndroidSMSService.sendSMS env m).1.error.map SMSError.code
        = some "INVALID_PHONE_NUMBER"
    ∧ (AndroidSMSService.sendSMS env m).1.error.map SMSError.isRecoverable
        = some true
    ∧ (AndroidSMSService.sendSMS env m).2 = [AndroidSMSService.Effect.osPermissionCheck]
    ∧ (AndroidSMSService.sendSMSWithRetry envs m cfg).2.1 = cfg.maxRetries + 1 := by
  have hsend : ∀ e : AndroidSMSService.Env, e.platformIsAndroid = true →
      e.osHasPermission = true →
      AndroidSMSService.sendSMS e m
        = ({ success := false, deliveryStatus := SMSDeliveryStatus.failed,
             error := some (AndroidSMSService.createError "INVALID_PHONE_NUMBER"
               "Invalid phone number format"
               "The phone number format is not valid. Please check the number and try again."
               true "Enter a valid phone number (10-15 digits)") },
           [AndroidSMSService.Effect.osPermissionCheck]) := by
    intro e h1 h2
    simp [AndroidSMSService.sendSMS, AndroidSMSService.checkSMSPermission, h1, h2, hval]
  have hrec : ∀ i, i ≤ cfg.maxRetries →
      isRecoverableFailure ((AndroidSMSService.sendSMS (envs i) m).1) = true := by
    intro i _
    rw [hsend (envs i) (henvs i).1 (henvs i).2]
    rfl
  have hloop := sendWithRetryLoop_all_recoverable
    (fun i => (AndroidSMSService.sendSMS (envs i) m).1) cfg.maxRetries cfg.retryDelay
    hrec cfg.maxRetries 0 (Nat.zero_le _) (by omega)
  refine ⟨?_, ?_, ?_, ?_, ?_⟩
  · rw [hsend env hplat hperm]
  · rw [hsend env hplat hperm]; rfl
  · rw [hsend env hplat hperm]; rfl
  · rw [hsend env hplat hperm]
  · show (sendWithRetryLoop (fun i => (AndroidSMSService.sendSMS (envs i) m).1)
      cfg.maxRetries cfg.retryDelay 0).2.1 = cfg.maxRetries + 1
    rw [hloop]

/-- Witness for C4 (amended): recipient "123" with the default config: the
error is `INVALID_PHONE_NUMBER` and 4 attempts (1 + 3 retries) are made. -/
theorem invalid_recipient_spec_witness :
    (AndroidSMSService.sendSMS androidOkEnv { toNumber := "123", body := "hello" }).1.error.map
        SMSError.code = some "INVALID_PHONE_NUMBER"
    ∧ (AndroidSMSService.sendSMSWithRetry (fun _ => androidOkEnv)
        { toNumber := "123", body := "hello" } defaultRetryConfig).2.1
        = defaultRetryConfig.maxRetries + 1 :=
  ⟨(invalid_recipient_spec androidOkEnv (fun _ => androidOkEnv) defaultRetryConfig
      { toNumber := "123", body := "hello" } rfl rfl (by decide)
      (fun _ => ⟨rfl, rfl⟩)).2.1,
   (invalid_recipient_spec androidOkEnv (fun _ => androidOkEnv) defaultRetryConfig
      { toNumber := "123", body := "hello" } rfl rfl (by decide)
      (fun _ => ⟨rfl, rfl⟩)).2.2.2.2⟩

/-- C4 counterexample: for recipient "123" the claim's recoverability and
no-retry parts fail on the code: the `INVALID_PHONE_NUMBER` error is marked
recoverable and `sendSMSWithRetry` makes 4 `sendSMS` calls (1 + 3 retries)
with the default config instead of none. -/
theorem invalid_recipient_retried_counterexample :
    (AndroidSMSService.sendSMS androidOkEnv { toNumber := "123", body := "hello" }).1.error.map
        SMSError.isRecoverable = some true
    ∧ (AndroidSMSService.sendSMSWithRetry (fun _ => androidOkEnv)
        { toNumber := "123", body := "hello" } defaultRetryConfig).2.1 = 4
    ∧ (4 : Nat) ≠ 1 := by
  have hfail : isRecoverableFailure
      ((AndroidSMSService.sendSMS androidOkEnv { toNumber := "123", body := "hello" }).1)
      = true := by decide
  have hloop := sendWithRetryLoop_all_recoverable
    (fun i => (AndroidSMSService.sendSMS androidOkEnv { toNumber := "123", body := "hello" }).1)
    3 2000 (fun i _ => hfail) 3 0 (Nat.zero_le _) rfl
  refine ⟨by decide, ?_, by decide⟩
  show (sendWithRetryLoop
    (fun i => (AndroidSMSService.sendSMS ((fun _ => androidOkEnv) i)
      { toNumber := "123", body := "hello" }).1) 3 2000 0).2.1 = 4
  rw [hloop]

/-! ### C5: empty or whitespace-only body -/

/-- C5: for every message whose body trims to the empty string, `sendSMS`
returns `success = false` in EVERY environment, on both platforms; and
whenever the preceding checks pass (right platform, permission or
availability, valid recipient), the attached error is `EMPTY_MESSAGE`. -/
theorem empty_body_spec (m : SMSMessage) (hbody : jsTrim m.body = "") :
    (∀ envA : AndroidSMSService.Env, (AndroidSMSService.sendSMS envA m).1.success = false)
    ∧ (∀ envI : IOSSMSService.Env, (IOSSMSService.sendSMS envI m).1.success = false)
    ∧ (∀ envA : AndroidSMSService.Env, envA.platformIsAndroid = true →
        envA.osHasPermission = true →
        AndroidSMSService.validatePhoneNumber m.toNumber = true →
        (AndroidSMSService.sendSMS envA m).1.error.map SMSError.code
          = some "EMPTY_MESSAGE")
    ∧ (∀ envI : IOSSMSService.Env, envI.platformIsIOS = true →
        IOSSMSService.isAvailable envI = true →
        IOSSMSService.validatePhoneNumber m.toNumber = true →
        (IOSSMSService.sendSMS envI m).1.error.map SMSError.code
          = some "EMPTY_MESSAGE") := by
  have hlen : (jsTrim m.body).length = 0 := by rw [hbody]; rfl
  refine ⟨?_, ?_, ?_, ?_⟩
  · intro envA
    simp only [AndroidSMSService.sendSMS]
    repeat' split
    all_goals simp_all
  · intro envI
    simp only [IOSSMSService.sendSMS]
    repeat' split
    all_goals simp_all
  · intro envA hplat hperm hval
    simp [AndroidSMSService.sendSMS, AndroidSMSService.checkSMSPermission,
      AndroidSMSService.createError, hplat, hperm, hval, hlen]
  · intro envI hios havail hval
    simp [IOSSMSService.sendSMS, IOSSMSService.createError, hios, havail, hval, hlen]

/-- Witness for C5: a whitespace-only body on both concrete environments. -/
theorem empty_body_spec_witness :
    jsTrim "   " = ""
    ∧ (AndroidSMSService.sendSMS androidOkEnv
        { toNumber := "5551234567", body := "   " }).1.success = false
    ∧ (IOSSMSService.sendSMS iosOkEnv
        { toNumber := "5551234567", body := "   " }).1.error.map SMSError.code
      = some "EMPTY_MESSAGE" :=
  ⟨by decide,
   (empty_body_spec { toNumber := "5551234567", body := "   " } (by decide)).1 androidOkEnv,
   (empty_body_spec { toNumber := "5551234567", body := "   " } (by decide)).2.2.2 iosOkEnv
     rfl (by decide) (by decide)⟩

/-! ### C6: the retry wrapper -/

/-- C6: `sendSMSWithRetry` on both platforms (both are instances of
`sendWithRetryLoop` over their `sendSMS`): a successful or non-recoverable
first result is returned without retrying; a run whose attempts are all
recoverable failures is retried after a fixed `retryDelay` wait each time, up
to `maxRetries` retries (defaults: 3 retries, 2000 ms), and the last failure
result is returned unchanged. -/
theorem send_with_retry_spec (cfg : RetryConfig) (m : SMSMessage)
    (envsA : Nat → AndroidSMSService.Env) (envsI : Nat → IOSSMSService.Env) :
    (defaultRetryConfig.maxRetries = 3 ∧ defaultRetryConfig.retryDelay = 2000)
    ∧ (isRecoverableFailure (AndroidSMSService.sendSMS (envsA 0) m).1 = false →
        AndroidSMSService.sendSMSWithRetry envsA m cfg
          = ((AndroidSMSService.sendSMS (envsA 0) m).1, 1, []))
    ∧ ((∀ i, i ≤ cfg.maxRetries →
          isRecoverableFailure (AndroidSMSService.sendSMS (envsA i) m).1 = true) →
        AndroidSMSService.sendSMSWithRetry envsA m cfg
          = ((AndroidSMSService.sendSMS (envsA cfg.maxRetries) m).1,
             cfg.maxRetries + 1, List.replicate cfg.maxRetries cfg.retryDelay))
    ∧ (isRecoverableFailure (IOSSMSService.sendSMS (envsI 0) m).1 = false →
        IOSSMSService.sendSMSWithRetry envsI m cfg
          = ((IOSSMSService.sendSMS (envsI 0) m).1, 1, []))
    ∧ ((∀ i, i ≤ cfg.maxRetries →
          isRecoverableFailure (IOSSMSService.sendSMS (envsI i) m).1 = true) →
        IOSSMSService.sendSMSWithRetry envsI m cfg
          = ((IOSSMSService.sendSMS (envsI cfg.maxRetries) m).1,
             cfg.maxRetries + 1, List.replicate cfg.maxRetries cfg.retryDelay)) := by
  refine ⟨⟨rfl, rfl⟩, ?_, ?_, ?_, ?_⟩
  · intro h
    exact sendWithRetryLoop_no_retry _ cfg.maxRetries cfg.retryDelay 0 h
  · intro h
    exact sendWithRetryLoop_all_recoverable _ cfg.maxRetries cfg.retryDelay h
      cfg.maxRetries 0 (Nat.zero_le _) (by omega)
  · intro h
    exact sendWithRetryLoop_no_retry _ cfg.maxRetries cfg.retryDelay 0 h
  · intro h
    exact sendWithRetryLoop_all_recoverable _ cfg.maxRetries cfg.retryDelay h
      cfg.maxRetries 0 (Nat.zero_le _) (by omega)

/-- Witness for C6: a run of persistent native-send failures retries 3 times
with 2000 ms waits and returns the last failure; an immediate success returns
after one attempt. -/
theorem send_with_retry_spec_witness :
    AndroidSMSService.sendSMSWithRetry (fun _ => androidSendFailEnv)
        { toNumber := "5551234567", body := "hello" } defaultRetryConfig
      = ((AndroidSMSService.sendSMS androidSendFailEnv
          { toNumber := "5551234567", body := "hello" }).1, 4, [2000, 2000, 2000])
    ∧ IOSSMSService.sendSMSWithRetry (fun _ => iosOkEnv)
        { toNumber := "5551234567", body := "hello" } defaultRetryConfig
      = ((IOSSMSService.sendSMS iosOkEnv
          { toNumber := "5551234567", body := "hello" }).1, 1, []) := by
  have hfail : isRecoverableFailure
      ((AndroidSMSService.sendSMS androidSendFailEnv
        { toNumber := "5551234567", body := "hello" }).1) = true := by decide
  have hok : isRecoverableFailure
      ((IOSSMSService.sendSMS iosOkEnv
        { toNumber := "5551234567", body := "hello" }).1) = false := by decide
  exact ⟨(send_with_retry_spec defaultRetryConfig { toNumber := "5551234567", body := "hello" }
      (fun _ => androidSendFailEnv) (fun _ => iosOkEnv)).2.2.1 (fun i _ => hfail),
    (send_with_retry_spec defaultRetryConfig { toNumber := "5551234567", body := "hello" }
      (fun _ => androidSendFailEnv) (fun _ => iosOkEnv)).2.2.2.1 hok⟩

/-! ### C10: shape of every send result -/

/-- Helper for C10, Android side: by exhausting every branch of `sendSMS`. -/
theorem android_result_invariant (env : AndroidSMSService.Env) (m : SMSMessage) :
    ((AndroidSMSService.sendSMS env m).1.success = true
      ↔ (AndroidSMSService.sendSMS env m).1.error = none)
    ∧ ((AndroidSMSService.sendSMS env m).1.success = true →
      (AndroidSMSService.sendSMS env m).1.deliveryStatus = SMSDeliveryStatus.sent) := by
  simp only [AndroidSMSService.sendSMS]
  repeat' split
  all_goals simp

/-- Helper for C10, iOS side. -/
theorem ios_result_invariant (env : IOSSMSService.Env) (m : SMSMessage) :
    ((IOSSMSService.sendSMS env m).1.success = true
      ↔ (IOSSMSService.sendSMS env m).1.error = none)
    ∧ ((IOSSMSService.sendSMS env m).1.success = true →
      (IOSSMSService.sendSMS env m).1.deliveryStatus = SMSDeliveryStatus.sent) := by
  simp only [IOSSMSService.sendSMS]
  repeat' split
  all_goals simp

/-- C10: on both platforms, every `sendSMS` result has `success = true` iff no
error object is attached; whenever `success = true` the delivery status is
`sent`; and (by the iff) every failing result, user cancellation included,
carries an `SMSError`, whose fields always include a code, a user message and
a recoverability flag. -/
theorem sms_result_success_iff_no_error (envA : AndroidSMSService.Env)
    (envI : IOSSMSService.Env) (m : SMSMessage) :
    ((AndroidSMSService.sendSMS envA m).1.success = true
      ↔ (AndroidSMSService.sendSMS envA m).1.error = none)
    ∧ ((AndroidSMSService.sendSMS envA m).1.success = true →
      (AndroidSMSService.sendSMS envA m).1.deliveryStatus = SMSDeliveryStatus.sent)
    ∧ ((IOSSMSService.sendSMS envI m).1.success = true
      ↔ (IOSSMSService.sendSMS envI m).1.error = none)
    ∧ ((IOSSMSService.sendSMS envI m).1.success = true →
      (IOSSMSService.sendSMS envI m).1.deliveryStatus = SMSDeliveryStatus.sent) :=
  ⟨(android_result_invariant envA m).1, (android_result_invariant envA m).2,
   (ios_result_invariant envI m).1, (ios_result_invariant envI m).2⟩

/-- Witness for C10: the success case on Android and the cancelled case via a
concrete environment. -/
theorem sms_result_success_iff_no_error_witness :
    ((AndroidSMSService.sendSMS androidOkEnv { toNumber := "5551234567", body := "hello" }).1.success
        = true
      ↔ (AndroidSMSService.sendSMS androidOkEnv { toNumber := "5551234567", body := "hello" }).1.error
        = none)
    ∧ ((IOSSMSService.sendSMS iosTimeoutEnv { toNumber := "5551234567", body := "hello" }).1.success
        = true
      ↔ (IOSSMSService.sendSMS iosTimeoutEnv { toNumber := "5551234567", body := "hello" }).1.error
        = none) :=
  ⟨(sms_result_success_iff_no_error androidOkEnv iosTimeoutEnv
      { toNumber := "5551234567", body := "hello" }).1,
   (sms_result_success_iff_no_error androidOkEnv iosTimeoutEnv
      { toNumber := "5551234567", body := "hello" }).2.2.1⟩

/-! ### Claims about the wake-word listener -/

namespace VoiceService

/-- A listening, initialized service state (reached from `initialState` by a
successful `start()`). -/
def listeningState : VSState :=
  { currentState := VoiceServiceState.listening, isInitialized := true,
    permissionGranted := true, retryCount := 0, porcupineCreated := true }

/-- The listening state is what a successful start from scratch produces. -/
theorem listeningState_reachable :
    (run goodEnv goodConfig initialState [Input.callStart]).1 = listeningState := by
  decide

/-- C1, the code evaluated at the failing scenario: four consecutive
classifier errors whose recovery attempts all fail (the engine stop succeeds
but the restart fails, so `start()` returns false). Because `stop()` and
`start()` report failure by return value and never throw, the unconditional
`retryCount = 0` line runs after every cycle: the service performs FOUR full
stop/wait-2s/start cycles — the claimed cap of 3 is exceeded — the terminal
`RECOVERY_FAILED` error is never emitted, and the counter ends at 0, so
further errors would keep producing cycles forever. -/
theorem recovery_cycles_unbounded :
    (let r := run startFailEnv goodConfig listeningState
      [Input.porcupineErrorCallback, Input.porcupineErrorCallback,
       Input.porcupineErrorCallback, Input.porcupineErrorCallback]
     r.2.count (Effect.wait 2000) = 4
     ∧ Effect.emit (Event.errorEvent "RECOVERY_FAILED") ∉ r.2
     ∧ r.1.retryCount = 0) := by
  decide

/-- C2, the code evaluated at the failing input: an `attemptRecovery`
execution in which the stop/wait-2s/start cycle does not succeed (`start()`
returns false and the service ends in ERROR, not LISTENING) still resets the
retry counter to 0 — the reset line runs unconditionally because the cycle
cannot throw. -/
theorem retryCount_reset_despite_failed_recovery :
    (let s : VSState :=
      { currentState := VoiceServiceState.error, isInitialized := true,
        permissionGranted := true, retryCount := 2, porcupineCreated := true }
     let r := attemptRecovery startFailEnv goodConfig s
     r.1.retryCount = 0
     ∧ r.1.currentState ≠ VoiceServiceState.listening
     ∧ Effect.emit (Event.errorEvent "START_ERROR") ∈ r.2) := by
  decide

/-- C7: calling `start()` in a state that is already LISTENING (and
initialized, as every reachable listening state is) is a no-op returning
success: the state is unchanged and no effect — no engine re-creation, no
engine re-start, no event — is performed. -/
theorem start_idempotent_when_listening (env : Env) (cfg : Config) (s : VSState)
    (hl : s.currentState = VoiceServiceState.listening) (hi : s.isInitialized = true) :
    start env cfg s = (true, s, []) := by
  simp [start, hl, hi]

/-- Witness for C7: a second `start()` right after a successful one. -/
theorem start_idempotent_when_listening_witness :
    listeningState.currentState = VoiceServiceState.listening
    ∧ listeningState.isInitialized = true
    ∧ start goodEnv goodConfig listeningState = (true, listeningState, []) :=
  ⟨rfl, rfl, start_idempotent_when_listening goodEnv goodConfig listeningState rfl rfl⟩

/-- C8 (amended): each keyword-detection callback sets the state to
PROCESSING from whatever state it arrives in — emission is not restricted to
LISTENING, the handler has no state guard — and emits the detection event;
the 1-second timer then returns the state to LISTENING if and only if it is
still PROCESSING when the timer fires. -/
theorem keyword_detection_spec (s : VSState) :
    handleKeywordDetection s
      = ({ s with currentState := VoiceServiceState.processing },
         [Effect.emit Event.keywordDetected])
    ∧ (s.currentState = VoiceServiceState.processing →
        detectionTimerFire s = { s with currentState := VoiceServiceState.listening })
    ∧ (s.currentState ≠ VoiceServiceState.processing →
        detectionTimerFire s = s) := by
  refine ⟨rfl, fun h => ?_, fun h => ?_⟩
  · simp [detectionTimerFire, h]
  · simp [detectionTimerFire, h]

/-- Witness for C8 (amended): the timer is a no-op on a listening state. -/
theorem keyword_detection_spec_witness :
    listeningState.currentState ≠ VoiceServiceState.processing
    ∧ detectionTimerFire listeningState = listeningState :=
  ⟨by decide, (keyword_detection_spec listeningState).2.2 (by decide)⟩

/-- C8 counterexample: starting from a freshly started service, two keyword
callbacks arrive before the 1-second timer fires. The first arrives in
LISTENING, but the second arrives — and its DetectionEvent is emitted — while
the state is PROCESSING, so a DetectionEvent is not only emitted while the
listener is in LISTENING. -/
theorem detection_emitted_outside_listening :
    (let s1 := (run goodEnv goodConfig initialState [Input.callStart]).1
     runDetectionStates goodEnv goodConfig s1
        [Input.keywordCallback, Input.keywordCallback]
      = [VoiceServiceState.listening, VoiceServiceState.processing]
     ∧ VoiceServiceState.processing ≠ VoiceServiceState.listening) := by
  decide

end VoiceService

/-! ### Claims about the permission gateway -/

namespace UsePermissions

/-- C9 counterexample: with the send permission cached as `never_ask_again`,
a further `requestPermission` call is not a no-op: it issues the OS
permission request again (non-empty effect trace) and increments
`requestCount`, instead of immediately returning the cached status without
touching the OS. -/
theorem request_never_ask_again_prompts_os :
    (requestPermissionAndroid OSRequestResult.neverAskAgain
        { status := PermissionStatus.neverAskAgain, requestCount := 1 }).2.2 ≠ []
    ∧ (requestPermissionAndroid OSRequestResult.neverAskAgain
        { status := PermissionStatus.neverAskAgain, requestCount := 1 }).2.1.requestCount
      = 2 := by
  decide

/-- C9 (amended): once a permission is cached as `never_ask_again`, every
subsequent `requestPermission` call still issues exactly one OS permission
request — the hook has no caching short-circuit — increments `requestCount`,
and returns whatever status the OS reports; in particular it returns
`never_ask_again` again whenever the OS still reports NEVER_ASK_AGAIN. A
fresh `checkPermission` maps the OS check onto granted/denied only. -/
theorem request_after_never_ask_again_spec (osResult : OSRequestResult)
    (p : Permission) (_h : p.status = PermissionStatus.neverAskAgain) :
    (requestPermissionAndroid osResult p).2.2 = [Effect.osRequest]
    ∧ (requestPermissionAndroid osResult p).2.1.requestCount = p.requestCount + 1
    ∧ (osResult = OSRequestResult.neverAskAgain →
        (requestPermissionAndroid osResult p).1 = PermissionStatus.neverAskAgain)
    ∧ ∀ osHas : Bool, (checkPermissionAndroid osHas p).1
        = if osHas then PermissionStatus.granted else PermissionStatus.denied := by
  refine ⟨rfl, rfl, fun ho => ?_, fun osHas => rfl⟩
  subst ho
  rfl

/-- Witness for C9 (amended): a concrete record stuck at `never_ask_again`. -/
theorem request_after_never_ask_again_spec_witness :
    ({ status := PermissionStatus.neverAskAgain, requestCount := 3 } : Permission).status
      = PermissionStatus.neverAskAgain
    ∧ (requestPermissionAndroid OSRequestResult.neverAskAgain
        { status := PermissionStatus.neverAskAgain, requestCount := 3 }).1
      = PermissionStatus.neverAskAgain :=
  ⟨rfl, (request_after_never_ask_again_spec OSRequestResult.neverAskAgain
      { status := PermissionStatus.neverAskAgain, requestCount := 3 } rfl).2.2.1 rfl⟩

end UsePermissions

end Evie
